import Mathlib

/-!
Shallow embedding of the `os-info` tool (file `os_info.py`): the credential
resolver, the validation step of `setup_openstack_connection`, and the report
builder `get_openstack_info_and_export_csv`, together with theorems settling
the specification claims about them.

Python dictionaries holding credential fields are embedded as a record of
`Option String` fields: `none` models an absent key, `some s` a present key
(possibly the empty string).  Python floats are embedded as rationals `ℚ`.
Python strings are embedded as Lean `String`; the character-level string
operations of the report builder (`split`, `strip`, `in`) are embedded over
`List Char`.
-/

/-- A credential record: the keys recognized by `os_info.py`.  `none` means
the key is absent from the Python dict. -/
structure AuthConfig where
  auth_url : Option String := none
  username : Option String := none
  password : Option String := none
  project_name : Option String := none
  user_domain_name : Option String := none
  project_domain_name : Option String := none
  region_name : Option String := none
  interface : Option String := none
  deriving Repr, DecidableEq

/-- Python truthiness of `auth_config.get(field)`: `False` for an absent key
(`None`) and for the empty string. -/
def truthy : Option String → Bool
  | none => false
  | some s => !(s == "")

/-- The required-field table of `validate_auth_config` (line 130):
`required_fields = ['auth_url', 'username', 'password', 'project_name']`,
paired with the dict access for each name. -/
def requiredFields : List (String × (AuthConfig → Option String)) :=
  [("auth_url", AuthConfig.auth_url),
   ("username", AuthConfig.username),
   ("password", AuthConfig.password),
   ("project_name", AuthConfig.project_name)]

/-- `validate_auth_config` (lines 120–133): returns
`(len(missing_fields) == 0, missing_fields)` where `missing_fields` is the
list comprehension `[field for field in required_fields if not
auth_config.get(field)]`. -/
def validate_auth_config (c : AuthConfig) : Bool × List String :=
  let missing := (requiredFields.filter (fun p => !truthy (p.2 c))).map Prod.fst
  (missing.isEmpty, missing)

/-- Spec-side predicate: an optional field is present and non-empty. -/
def presentNonEmpty : Option String → Prop
  | none => False
  | some s => s ≠ ""

/-- Spec-side predicate: all four required credential fields are present and
non-empty. -/
def completeConfig (c : AuthConfig) : Prop :=
  presentNonEmpty c.auth_url ∧ presentNonEmpty c.username ∧
    presentNonEmpty c.password ∧ presentNonEmpty c.project_name

/-- `truthy` is the boolean reflection of `presentNonEmpty`. -/
theorem truthy_iff (o : Option String) : truthy o = true ↔ presentNonEmpty o := by
  cases o with
  | none => simp [truthy, presentNonEmpty]
  | some s => simp [truthy, presentNonEmpty]

/-- An INI file as seen by `load_config_file`: either `configparser` raises
while reading (malformed file), or it yields a list of sections, each a list
of key/value pairs.  A nonexistent path reads as zero sections
(`configparser.read` silently skips missing files). -/
inductive IniFile where
  | unreadable
  | content (sections : List (String × List (String × String)))

/-- Section lookup in the parsed INI structure (`'openstack' in config`,
`config['openstack']`). -/
def findSection (sections : List (String × List (String × String)))
    (name : String) : Option (List (String × String)) :=
  sections.lookup name

/-- Key lookup in a section (`config_key in section`, `section[config_key]`). -/
def sectionGet (sec : List (String × String)) (key : String) : Option String :=
  sec.lookup key

/-- The `config_mapping` loop of `load_config_file` (lines 39–52): the
returned dict holds exactly the recognized keys that appear in the section,
with the section's values. -/
def sectionRecord (sec : List (String × String)) : AuthConfig :=
  { auth_url := sectionGet sec "auth_url",
    username := sectionGet sec "username",
    password := sectionGet sec "password",
    project_name := sectionGet sec "project_name",
    user_domain_name := sectionGet sec "user_domain_name",
    project_domain_name := sectionGet sec "project_domain_name",
    region_name := sectionGet sec "region_name",
    interface := sectionGet sec "interface" }

/-- `load_config_file` (lines 17–58): `ValueError` on a missing `[openstack]`
section and any parse error are caught and become `None`; otherwise the
record of the recognized keys of the section is returned. -/
def load_config_file : IniFile → Option AuthConfig
  | .unreadable => none
  | .content sections =>
    match findSection sections "openstack" with
    | none => none
    | some sec => some (sectionRecord sec)

/-- Characters stripped by Python's `str.strip()` with no argument. -/
def isPySpace (c : Char) : Bool :=
  c == ' ' || c == '\t' || c == '\n' || c == '\r' || c == '\x0b' || c == '\x0c'

/-- Drop trailing Python whitespace. -/
def dropTrailing (l : List Char) : List Char :=
  (l.reverse.dropWhile isPySpace).reverse

/-- Python `str.strip()` over a character list. -/
def stripList (l : List Char) : List Char :=
  (dropTrailing l).dropWhile isPySpace

/-- Python `str.strip()` over a `String`. -/
def pyStrip (s : String) : String := ⟨stripList s.data⟩

/-- The raw text typed at each prompt of `get_auth_interactive`. -/
structure InteractiveInput where
  authUrlIn : String
  usernameIn : String
  passwordIn : String
  projectNameIn : String
  userDomainIn : String
  projectDomainIn : String
  regionIn : String
  interfaceIn : String

/-- `get_auth_interactive` (lines 86–118): required fields are stripped input
(the password is read by `getpass` and not stripped); `user_domain_name`,
`project_domain_name` and `interface` fall back to `'default'`, `'default'`,
`'public'` on empty stripped input; `region_name` is set only when the
stripped input is non-empty. -/
def get_auth_interactive (i : InteractiveInput) : AuthConfig :=
  let userDomain := pyStrip i.userDomainIn
  let projectDomain := pyStrip i.projectDomainIn
  let region := pyStrip i.regionIn
  let iface := pyStrip i.interfaceIn
  { auth_url := some (pyStrip i.authUrlIn),
    username := some (pyStrip i.usernameIn),
    password := some i.passwordIn,
    project_name := some (pyStrip i.projectNameIn),
    user_domain_name := some (if userDomain == "" then "default" else userDomain),
    project_domain_name := some (if projectDomain == "" then "default" else projectDomain),
    region_name := if region == "" then none else some region,
    interface := some (if iface == "" then "public" else iface) }

/-- `dict.setdefault(key, value)` on one field: fills the default only when
the key is absent (a present empty string stays). -/
def setdefaultField (o : Option String) (d : String) : Option String :=
  match o with
  | none => some d
  | some v => some v

/-- The default-application step of `setup_openstack_connection`
(lines 206–208): `setdefault` for `user_domain_name`, `project_domain_name`
and `interface`. -/
def applyDefaults (c : AuthConfig) : AuthConfig :=
  { c with user_domain_name := setdefaultField c.user_domain_name "default",
           project_domain_name := setdefaultField c.project_domain_name "default",
           interface := setdefaultField c.interface "public" }

/-- The validation step of `setup_openstack_connection` (lines 200–208):
raise `ValueError` with the joined missing-field names when the resolved
record is invalid, otherwise apply the optional-field defaults and proceed. -/
def finalizeAuthConfig (c : AuthConfig) : Except String AuthConfig :=
  let v := validate_auth_config c
  if v.1 then Except.ok (applyDefaults c)
  else Except.error ("Missing required authentication fields: " ++ String.intercalate ", " v.2)

/-- The three default config paths of the `auto` strategy (lines 162–166),
before `os.path.expanduser` expansion. -/
def defaultConfigPaths : List String :=
  ["~/.config/openstack/clouds.ini", "~/.openstack/config", "./openstack.conf"]

/-- One iteration of the `auto` file loop (lines 168–174): the path must
exist (`fs path = some file`), load, and the loaded record must validate;
otherwise this path contributes nothing.  `fs` models the filesystem: `none`
means the path does not exist. -/
def attemptFile (fs : String → Option IniFile) (path : String) : Option AuthConfig :=
  match fs path with
  | none => none
  | some file =>
    match load_config_file file with
    | none => none
    | some c => if (validate_auth_config c).1 then some c else none

/-- The `auto` file loop: adopt the first path whose `attemptFile` succeeds
(`break` at the first hit). -/
def tryConfigFiles (fs : String → Option IniFile) : List String → Option AuthConfig
  | [] => none
  | p :: ps =>
    match attemptFile fs p with
    | some c => some c
    | none => tryConfigFiles fs ps

/-- The `auto` branch of `setup_openstack_connection` (lines 157–179):
start from the environment record; when it does not validate, run the file
loop (which may leave the record unchanged); when the record still does not
validate, fall back to the interactive record. -/
def resolveAuto (env : AuthConfig) (fs : String → Option IniFile)
    (interactiveCfg : AuthConfig) : AuthConfig :=
  let auth0 := env
  if (validate_auth_config auth0).1 then auth0
  else
    let auth1 := (tryConfigFiles fs defaultConfigPaths).getD auth0
    if (validate_auth_config auth1).1 then auth1 else interactiveCfg

/-! ### Report builder: instance pass -/

/-- One address entry of `server.addresses[network_name]`: the `addr` field
and the `OS-EXT-IPS:type` field, as character lists. -/
structure AddrEntry where
  addr : List Char
  ipType : List Char
  deriving Repr, DecidableEq

/-- The f-string of line 267:
`f"{network_name}:{address['addr']} ({address['OS-EXT-IPS:type']})"`. -/
def fmtAddr (network : List Char) (a : AddrEntry) : List Char :=
  network ++ (':' :: (a.addr ++ (' ' :: '(' :: (a.ipType ++ [')']))))

/-- The nested loops of lines 263–267 building `network_ips` from the
`server.addresses` mapping (network name to address-entry list). -/
def buildNetworkIps (addresses : List (List Char × List AddrEntry)) : List (List Char) :=
  addresses.foldl (fun acc p => acc ++ p.2.map (fmtAddr p.1)) []

/-- Python `sep in s`: substring containment. -/
def pyContains (pat s : List Char) : Bool := decide (pat <:+: s)

/-- The characters of the literal `'floating'` of line 304. -/
def floatingChars : List Char := "floating".data

/-- Python `s.split(sep)` for a one-character separator. -/
def splitChar (c : Char) : List Char → List (List Char)
  | [] => [[]]
  | x :: xs =>
    if x == c then [] :: splitChar c xs
    else
      match splitChar c xs with
      | [] => [[x]]
      | r :: rs => (x :: r) :: rs

/-- The extraction of line 304 applied to the first joined entry:
`network_ips[0].split(':')[1].split('(')[0].strip()`. -/
def pyExtract (s : List Char) : List Char :=
  stripList ((splitChar '(' ((splitChar ':' s).getD 1 [])).getD 0 [])

/-- The `"Public IP"` expression of line 304:
`... if network_ips and 'floating' in network_ips[0] else 'N/A'`. -/
def publicIpField (networkIps : List (List Char)) : List Char :=
  match networkIps with
  | [] => "N/A".data
  | ip0 :: _ => if pyContains floatingChars ip0 then pyExtract ip0 else "N/A".data

/-- A flavor as returned by `conn.compute.get_flavor`; `vcpus`/`ram` may be
`None` (the code guards with `or 0`). -/
structure Flavor where
  vcpus : Option Nat := none
  ram : Option Nat := none
  disk : Option Nat := none
  deriving Repr, DecidableEq

/-- A fetched server, restricted to the fields the report builder reads.
`flavor` is the result of resolving the server's flavor reference: `none`
models a server without a `flavor` key, a falsy flavor value, or a failed
`get_flavor` lookup (all of which contribute nothing, lines 353–360).
`hypervisorHostname` is the `OS-EXT-SRV-ATTR:hypervisor_hostname` entry of
`server.to_dict()`, `none` when absent. -/
structure Server where
  id : String := ""
  name : String := ""
  status : String := ""
  hypervisorHostname : Option String := none
  flavor : Option Flavor := none
  addresses : List (List Char × List AddrEntry) := []

/-- The instance-pass row, restricted to the fields the claims are about;
fields derived from wall-clock time or further per-entity lookups (uptime,
project/image names, volumes, metadata) are outside the embedding. -/
structure InstanceRow where
  rowId : String
  rowName : String
  rowStatus : String
  rowHypervisorHostname : String
  rowVcpus : Option Nat
  rowRam : Option Nat
  rowDisk : Option Nat
  publicIp : List Char
  networkIps : List Char

/-- The per-server body of the instance loop (lines 256–309), restricted as
in `InstanceRow`.  Line 288 defaults the hypervisor hostname to `'N/A'`;
line 304 derives the public IP; line 268 joins the entries with `'; '`. -/
def buildInstanceRow (s : Server) : InstanceRow :=
  let networkIps := buildNetworkIps s.addresses
  { rowId := s.id,
    rowName := s.name,
    rowStatus := s.status,
    rowHypervisorHostname := s.hypervisorHostname.getD "N/A",
    rowVcpus := s.flavor.bind Flavor.vcpus,
    rowRam := s.flavor.bind Flavor.ram,
    rowDisk := s.flavor.bind Flavor.disk,
    publicIp := publicIpField networkIps,
    networkIps := (networkIps.intersperse "; ".data).flatten }

/-! ### Report builder: hypervisor pass -/

/-- A fetched hypervisor, with the fields the hypervisor pass reads. -/
structure Hypervisor where
  hvId : String := ""
  name : String := ""
  hypervisor_type : String := ""
  state : String := ""
  status : String := ""
  vcpus : Nat := 0
  vcpus_used : Nat := 0
  memory_size : Nat := 0
  memory_used : Nat := 0
  local_disk_size : Nat := 0
  local_disk_used : Nat := 0
  running_vms : Nat := 0
  host_ip : String := ""

/-- The statuses counted as active by line 349. -/
def activeStatuses : List String := ["ACTIVE", "PAUSED", "SUSPENDED"]

/-- Line 348–349: the server's hostname attribute (defaulted to `''`) equals
the hypervisor name, and the status is in the active set. -/
def serverMatches (h : Hypervisor) (s : Server) : Bool :=
  s.hypervisorHostname.getD "" == h.name && activeStatuses.contains s.status

/-- Lines 353–358: the vcpus contributed by a matching server
(`flavor.vcpus or 0`; nothing when the flavor cannot be resolved). -/
def flavorContribVcpus (s : Server) : Nat :=
  match s.flavor with
  | some f => f.vcpus.getD 0
  | none => 0

/-- Lines 353–358: the ram contributed by a matching server. -/
def flavorContribRam (s : Server) : Nat :=
  match s.flavor with
  | some f => f.ram.getD 0
  | none => 0

/-- One iteration of the loop of lines 346–360, accumulating
`(allocated_vcpus, allocated_memory, len(instances_on_hypervisor))`. -/
def scanStep (h : Hypervisor) (acc : Nat × Nat × Nat) (s : Server) : Nat × Nat × Nat :=
  if serverMatches h s then
    (acc.1 + flavorContribVcpus s, acc.2.1 + flavorContribRam s, acc.2.2 + 1)
  else acc

/-- The full loop of lines 346–360 over `all_servers`. -/
def scanServers (h : Hypervisor) (servers : List Server) : Nat × Nat × Nat :=
  servers.foldl (scanStep h) (0, 0, 0)

/-- `allocated_vcpus` after the loop (lines 342, 357). -/
def allocated_vcpus (h : Hypervisor) (servers : List Server) : Nat :=
  (scanServers h servers).1

/-- `allocated_memory` after the loop (lines 343, 358). -/
def allocated_memory (h : Hypervisor) (servers : List Server) : Nat :=
  (scanServers h servers).2.1

/-- `len(instances_on_hypervisor)` after the loop (lines 344, 350, 407). -/
def instancesOnHypervisor (h : Hypervisor) (servers : List Server) : Nat :=
  (scanServers h servers).2.2

/-- Line 363: `(allocated_vcpus / hypervisor.vcpus) if hypervisor.vcpus > 0
else 0`, over `ℚ`. -/
def cpu_overcommit_ratio (h : Hypervisor) (servers : List Server) : ℚ :=
  if 0 < h.vcpus then (allocated_vcpus h servers : ℚ) / (h.vcpus : ℚ) else 0

/-- Line 364: the memory overcommit ratio, guarded by `memory_size > 0`. -/
def memory_overcommit_ratio (h : Hypervisor) (servers : List Server) : ℚ :=
  if 0 < h.memory_size then (allocated_memory h servers : ℚ) / (h.memory_size : ℚ) else 0

/-- Line 367: `(vcpus_used / vcpus) * 100` guarded by `vcpus > 0`. -/
def physical_cpu_usage (h : Hypervisor) : ℚ :=
  if 0 < h.vcpus then ((h.vcpus_used : ℚ) / (h.vcpus : ℚ)) * 100 else 0

/-- Line 368: `(memory_used / memory_size) * 100` guarded. -/
def physical_memory_usage (h : Hypervisor) : ℚ :=
  if 0 < h.memory_size then ((h.memory_used : ℚ) / (h.memory_size : ℚ)) * 100 else 0

/-- Line 370: `(allocated_vcpus / vcpus) * 100` guarded. -/
def allocated_cpu_percentage (h : Hypervisor) (servers : List Server) : ℚ :=
  if 0 < h.vcpus then ((allocated_vcpus h servers : ℚ) / (h.vcpus : ℚ)) * 100 else 0

/-- Line 371: `(allocated_memory / memory_size) * 100` guarded. -/
def allocated_memory_percentage (h : Hypervisor) (servers : List Server) : ℚ :=
  if 0 < h.memory_size then ((allocated_memory h servers : ℚ) / (h.memory_size : ℚ)) * 100 else 0

/-- Python's `round` to an integer: round-half-to-even (banker's rounding),
as documented for `round(number[, ndigits])`. -/
def roundHalfEven (q : ℚ) : ℤ :=
  let f := ⌊q⌋
  let frac := q - f
  if frac < 1/2 then f
  else if 1/2 < frac then f + 1
  else if f % 2 = 0 then f else f + 1

/-- Python's `round(x, 2)`. -/
def round2 (q : ℚ) : ℚ := (roundHalfEven (q * 100) : ℚ) / 100

/-- The hypervisor-pass row (lines 373–415), with percentage/ratio fields
carrying the `round(x, 2)` display values and the overcommit flags. -/
structure HypervisorRow where
  rowId : String
  hostname : String
  hypervisorType : String
  rowState : String
  rowStatus : String
  physicalCpus : Nat
  physicalCpusUsed : Nat
  physicalCpuUsagePct : ℚ
  allocatedVcpus : Nat
  allocatedCpuPct : ℚ
  cpuOvercommitDisplay : ℚ
  physicalRamTotal : Nat
  physicalRamUsed : Nat
  physicalRamUsagePct : ℚ
  allocatedRam : Nat
  allocatedRamPct : ℚ
  memoryOvercommitDisplay : ℚ
  diskTotal : Nat
  diskUsed : Nat
  diskUsagePct : ℚ
  runningVms : Nat
  activeInstances : Nat
  hostIp : String
  cpuOvercommitted : String
  memoryOvercommitted : String

/-- The per-hypervisor body of the loop of lines 338–416: run the server
scan, derive the guarded ratios and percentages, and build the row, rounding
the displayed ratios and deriving the overcommit flags from the unrounded
ratios (lines 413–414). -/
def buildHypervisorRow (h : Hypervisor) (servers : List Server) : HypervisorRow :=
  { rowId := h.hvId,
    hostname := h.name,
    hypervisorType := h.hypervisor_type,
    rowState := h.state,
    rowStatus := h.status,
    physicalCpus := h.vcpus,
    physicalCpusUsed := h.vcpus_used,
    physicalCpuUsagePct := round2 (physical_cpu_usage h),
    allocatedVcpus := allocated_vcpus h servers,
    allocatedCpuPct := round2 (allocated_cpu_percentage h servers),
    cpuOvercommitDisplay := round2 (cpu_overcommit_ratio h servers),
    physicalRamTotal := h.memory_size,
    physicalRamUsed := h.memory_used,
    physicalRamUsagePct := round2 (physical_memory_usage h),
    allocatedRam := allocated_memory h servers,
    allocatedRamPct := round2 (allocated_memory_percentage h servers),
    memoryOvercommitDisplay := round2 (memory_overcommit_ratio h servers),
    diskTotal := h.local_disk_size,
    diskUsed := h.local_disk_used,
    diskUsagePct :=
      if 0 < h.local_disk_size then
        round2 (((h.local_disk_used : ℚ) / (h.local_disk_size : ℚ)) * 100)
      else 0,
    runningVms := h.running_vms,
    activeInstances := instancesOnHypervisor h servers,
    hostIp := h.host_ip,
    cpuOvercommitted := if 1 < cpu_overcommit_ratio h servers then "Yes" else "No",
    memoryOvercommitted := if 1 < memory_overcommit_ratio h servers then "Yes" else "No" }

/-! ### Report builder: top level -/

/-- An established connection, as the two collections the report builder
fetches from it. -/
structure Conn where
  servers : List Server
  hypervisors : List Hypervisor

/-- The observable outcome of one `get_openstack_info_and_export_csv` call:
the error printed (if any), whether each collection was fetched, and the rows
written to each CSV file (`none` when the file is not written). -/
structure ReportOutcome where
  errorMsg : Option String
  serversFetched : Bool
  hypervisorsFetched : Bool
  instanceCsv : Option (List InstanceRow)
  hypervisorCsv : Option (List HypervisorRow)

/-- `get_openstack_info_and_export_csv` (lines 226–428).  The two guards of
lines 238–244 return early with an error message, fetching nothing and
writing nothing.  Otherwise the server list is fetched (also when the
instance pass is disabled but the hypervisor pass needs it, lines 322–326),
and each enabled pass writes its file exactly when it produced at least one
row (lines 311–317, 418–424). -/
def get_openstack_info_and_export_csv (conn : Option Conn)
    (exportInstances exportHypervisors : Bool) : ReportOutcome :=
  match conn with
  | none =>
    { errorMsg := some "Error: OpenStack connection not provided",
      serversFetched := false, hypervisorsFetched := false,
      instanceCsv := none, hypervisorCsv := none }
  | some c =>
    if !exportInstances && !exportHypervisors then
      { errorMsg := some "Error: At least one export option (instances or hypervisors) must be enabled",
        serversFetched := false, hypervisorsFetched := false,
        instanceCsv := none, hypervisorCsv := none }
    else
      let allServers := if exportInstances then c.servers
        else if exportHypervisors then c.servers else []
      let instanceRows := if exportInstances then c.servers.map buildInstanceRow else []
      let hypRows := if exportHypervisors then
        c.hypervisors.map (fun h => buildHypervisorRow h allServers) else []
      { errorMsg := none,
        serversFetched := exportInstances || exportHypervisors,
        hypervisorsFetched := exportHypervisors,
        instanceCsv := if exportInstances && !instanceRows.isEmpty then some instanceRows else none,
        hypervisorCsv := if exportHypervisors && !hypRows.isEmpty then some hypRows else none }

/-! ### Helper lemmas about validation -/

/-- Unfolding of the missing-field list: the declared-order concatenation of
the names whose field is absent or empty. -/
theorem validate_snd (c : AuthConfig) :
    (validate_auth_config c).2 =
      (if truthy c.auth_url then [] else ["auth_url"]) ++
      (if truthy c.username then [] else ["username"]) ++
      (if truthy c.password then [] else ["password"]) ++
      (if truthy c.project_name then [] else ["project_name"]) := by
  cases ha : truthy c.auth_url <;> cases hb : truthy c.username <;>
    cases hc : truthy c.password <;> cases hd : truthy c.project_name <;>
      simp [validate_auth_config, requiredFields, ha, hb, hc, hd]

/-- The boolean result of validation reflects completeness. -/
theorem validate_fst (c : AuthConfig) :
    (validate_auth_config c).1 = true ↔ completeConfig c := by
  have ha := truthy_iff c.auth_url
  have hb := truthy_iff c.username
  have hc := truthy_iff c.password
  have hd := truthy_iff c.project_name
  cases h1 : truthy c.auth_url <;> cases h2 : truthy c.username <;>
    cases h3 : truthy c.password <;> cases h4 : truthy c.project_name <;>
      simp [validate_auth_config, requiredFields, completeConfig, h1, h2, h3, h4,
        ← ha, ← hb, ← hc, ← hd]

theorem validate_pair (c : AuthConfig) :
    validate_auth_config c = ((validate_auth_config c).1, (validate_auth_config c).2) := rfl

/-! ### Claim C3 -/

/-- C3: `validate_auth_config` returns `(true, [])` exactly when all four
required fields are present and non-empty; otherwise it returns `false`
together with the missing field names in the declared order
`auth_url, username, password, project_name`. -/
theorem claim_C3 (c : AuthConfig) :
    (validate_auth_config c = (true, []) ↔ completeConfig c) ∧
    ((validate_auth_config c).1 = false ↔ ¬ completeConfig c) ∧
    (validate_auth_config c).2 =
      (if truthy c.auth_url then [] else ["auth_url"]) ++
      (if truthy c.username then [] else ["username"]) ++
      (if truthy c.password then [] else ["password"]) ++
      (if truthy c.project_name then [] else ["project_name"]) := by
  refine ⟨?_, ?_, validate_snd c⟩
  · constructor
    · intro h
      exact (validate_fst c).1 (by rw [h])
    · intro h
      have h1 : (validate_auth_config c).1 = true := (validate_fst c).2 h
      have h2 : (validate_auth_config c).2 = [] := by
        have := validate_auth_config c
        unfold validate_auth_config at h1 ⊢
        simpa using h1
      rw [validate_pair c, h1, h2]
  · rw [← validate_fst c]
    cases h : (validate_auth_config c).1 <;> simp [h]

/-- C3 witness: a record with an absent `username` and an empty `password`
yields exactly those two names, in declared order. -/
theorem claim_C3_witness :
    validate_auth_config
      { auth_url := some "https://keystone.example.com:5000/v3", username := none,
        password := some "", project_name := some "demo" } = (false, ["username", "password"]) := by
  have h := claim_C3
    { auth_url := some "https://keystone.example.com:5000/v3", username := none,
      password := some "", project_name := some "demo" }
  have hfst := h.2.1.2 (by simp [completeConfig, presentNonEmpty])
  rw [validate_pair, hfst, h.2.2]
  rfl

/-! ### Claim C5 -/

/-- C5: after any resolution strategy, the validation step fails with the
missing-fields message (names joined in declared order) exactly when the
record is incomplete; on a complete record it applies the optional-field
defaults and proceeds. -/
theorem claim_C5 (c : AuthConfig) :
    ((∃ msg, finalizeAuthConfig c = Except.error msg) ↔ ¬ completeConfig c) ∧
    (¬ completeConfig c → finalizeAuthConfig c =
      Except.error ("Missing required authentication fields: " ++
        String.intercalate ", " ((validate_auth_config c).2))) ∧
    (completeConfig c → finalizeAuthConfig c = Except.ok (applyDefaults c)) := by
  unfold finalizeAuthConfig
  cases hv : (validate_auth_config c).1 with
  | false =>
    have hnc : ¬ completeConfig c := by
      intro hc
      rw [(validate_fst c).2 hc] at hv
      exact Bool.true_eq_false.mp hv
    simp only [hv]
    exact ⟨by simpa using hnc, fun _ => rfl, fun hc => absurd hc hnc⟩
  | true =>
    have hc : completeConfig c := (validate_fst c).1 hv
    simp only [hv]
    exact ⟨by simpa using hc, fun hn => absurd hc hn, fun _ => rfl⟩

/-- C5 witness: a complete record passes and receives the defaults; an empty
record fails with all four names. -/
theorem claim_C5_witness :
    finalizeAuthConfig
        { auth_url := some "https://keystone.example.com:5000/v3", username := some "admin",
          password := some "secret", project_name := some "demo" } =
      Except.ok (applyDefaults
        { auth_url := some "https://keystone.example.com:5000/v3", username := some "admin",
          password := some "secret", project_name := some "demo" }) ∧
    finalizeAuthConfig {} =
      Except.error "Missing required authentication fields: auth_url, username, password, project_name" := by
  constructor
  · exact (claim_C5 _).2.2 (by simp [completeConfig, presentNonEmpty])
  · have h := (claim_C5 {}).2.1 (by simp [completeConfig, presentNonEmpty])
    rw [h]
    rfl

/-! ### Claim C10 -/

/-- C10: the default-application step never overwrites a present value
(empty or not); it fills `'default'`/`'default'`/`'public'` only for absent
keys, and every other field of the record is untouched. -/
theorem claim_C10 (c : AuthConfig) :
    (c.user_domain_name = none → (applyDefaults c).user_domain_name = some "default") ∧
    (∀ v, c.user_domain_name = some v → (applyDefaults c).user_domain_name = some v) ∧
    (c.project_domain_name = none → (applyDefaults c).project_domain_name = some "default") ∧
    (∀ v, c.project_domain_name = some v → (applyDefaults c).project_domain_name = some v) ∧
    (c.interface = none → (applyDefaults c).interface = some "public") ∧
    (∀ v, c.interface = some v → (applyDefaults c).interface = some v) ∧
    (applyDefaults c).auth_url = c.auth_url ∧
    (applyDefaults c).username = c.username ∧
    (applyDefaults c).password = c.password ∧
    (applyDefaults c).project_name = c.project_name ∧
    (applyDefaults c).region_name = c.region_name := by
  refine ⟨fun h => ?_, fun v h => ?_, fun h => ?_, fun v h => ?_, fun h => ?_, fun v h => ?_,
    rfl, rfl, rfl, rfl, rfl⟩ <;> simp [applyDefaults, setdefaultField, h]

/-- C10 witness: a record with a non-empty `user_domain_name`, an empty
(present) `project_domain_name` and an absent `interface` keeps the first
two values and fills only the third. -/
theorem claim_C10_witness :
    (applyDefaults
        { auth_url := some "https://keystone.example.com:5000/v3",
          user_domain_name := some "Users", project_domain_name := some "" }).user_domain_name
      = some "Users" ∧
    (applyDefaults
        { auth_url := some "https://keystone.example.com:5000/v3",
          user_domain_name := some "Users", project_domain_name := some "" }).project_domain_name
      = some "" ∧
    (applyDefaults
        { auth_url := some "https://keystone.example.com:5000/v3",
          user_domain_name := some "Users", project_domain_name := some "" }).interface
      = some "public" ∧
    (applyDefaults
        { auth_url := some "https://keystone.example.com:5000/v3",
          user_domain_name := some "Users", project_domain_name := some "" }).auth_url
      = some "https://keystone.example.com:5000/v3" := by
  have h := claim_C10
    { auth_url := some "https://keystone.example.com:5000/v3",
      user_domain_name := some "Users", project_domain_name := some "" }
  exact ⟨h.2.1 "Users" rfl, h.2.2.2.1 "" rfl, h.2.2.2.2.1 rfl,
    h.2.2.2.2.2.2.1⟩

/-! ### Claim C8 -/

/-- C8: interactive resolution with empty input at the optional prompts
yields `'default'`, `'default'`, `'public'` for the two domain names and the
interface, and no `region_name` key at all, whatever the required-field
answers are. -/
theorem claim_C8 (au un pw pn : String) :
    (get_auth_interactive ⟨au, un, pw, pn, "", "", "", ""⟩).user_domain_name = some "default" ∧
    (get_auth_interactive ⟨au, un, pw, pn, "", "", "", ""⟩).project_domain_name = some "default" ∧
    (get_auth_interactive ⟨au, un, pw, pn, "", "", "", ""⟩).interface = some "public" ∧
    (get_auth_interactive ⟨au, un, pw, pn, "", "", "", ""⟩).region_name = none :=
  ⟨rfl, rfl, rfl, rfl⟩

/-! ### Claim C9 -/

/-- C9: with no connection, or with both passes disabled, the report builder
reports the error and returns: nothing is fetched, no file is written, and
no exception is raised (the outcome is total). -/
theorem claim_C9 (ei eh : Bool) (c : Conn) :
    (get_openstack_info_and_export_csv none ei eh).errorMsg
        = some "Error: OpenStack connection not provided" ∧
    (get_openstack_info_and_export_csv none ei eh).serversFetched = false ∧
    (get_openstack_info_and_export_csv none ei eh).hypervisorsFetched = false ∧
    (get_openstack_info_and_export_csv none ei eh).instanceCsv = none ∧
    (get_openstack_info_and_export_csv none ei eh).hypervisorCsv = none ∧
    (get_openstack_info_and_export_csv (some c) false false).errorMsg
        = some "Error: At least one export option (instances or hypervisors) must be enabled" ∧
    (get_openstack_info_and_export_csv (some c) false false).serversFetched = false ∧
    (get_openstack_info_and_export_csv (some c) false false).hypervisorsFetched = false ∧
    (get_openstack_info_and_export_csv (some c) false false).instanceCsv = none ∧
    (get_openstack_info_and_export_csv (some c) false false).hypervisorCsv = none :=
  ⟨rfl, rfl, rfl, rfl, rfl, rfl, rfl, rfl, rfl, rfl⟩

/-! ### Claim C6 -/

/-- A key lookup succeeds exactly when the key occurs in the section. -/
theorem sectionGet_isSome_iff (sec : List (String × String)) (k : String) :
    (sectionGet sec k).isSome = true ↔ k ∈ sec.map Prod.fst := by
  induction sec with
  | nil => simp [sectionGet, List.lookup]
  | cons p ps ih =>
    obtain ⟨a, b⟩ := p
    by_cases h : k = a
    · subst h
      simp [sectionGet, List.lookup]
    · simp only [sectionGet, List.lookup] at ih ⊢
      rw [show (k == a) = false by simpa using h]
      simp only [ih]
      simp [h]

/-- C6: the file loader returns an absent record on an unreadable file, on a
nonexistent file (which `configparser` reads as zero sections), and on a file
without an `[openstack]` section — never an exception.  When the section is
present, the returned record holds a recognized key exactly when that key
appears in the section, with the section's value. -/
theorem claim_C6 :
    load_config_file IniFile.unreadable = none ∧
    load_config_file (IniFile.content []) = none ∧
    (∀ sections, findSection sections "openstack" = none →
      load_config_file (IniFile.content sections) = none) ∧
    (∀ sections sec, findSection sections "openstack" = some sec →
      ∃ r, load_config_file (IniFile.content sections) = some r ∧
        r.auth_url = sectionGet sec "auth_url" ∧
        r.username = sectionGet sec "username" ∧
        r.password = sectionGet sec "password" ∧
        r.project_name = sectionGet sec "project_name" ∧
        r.user_domain_name = sectionGet sec "user_domain_name" ∧
        r.project_domain_name = sectionGet sec "project_domain_name" ∧
        r.region_name = sectionGet sec "region_name" ∧
        r.interface = sectionGet sec "interface" ∧
        (r.auth_url.isSome = true ↔ "auth_url" ∈ sec.map Prod.fst) ∧
        (r.username.isSome = true ↔ "username" ∈ sec.map Prod.fst) ∧
        (r.password.isSome = true ↔ "password" ∈ sec.map Prod.fst) ∧
        (r.project_name.isSome = true ↔ "project_name" ∈ sec.map Prod.fst) ∧
        (r.user_domain_name.isSome = true ↔ "user_domain_name" ∈ sec.map Prod.fst) ∧
        (r.project_domain_name.isSome = true ↔ "project_domain_name" ∈ sec.map Prod.fst) ∧
        (r.region_name.isSome = true ↔ "region_name" ∈ sec.map Prod.fst) ∧
        (r.interface.isSome = true ↔ "interface" ∈ sec.map Prod.fst)) := by
  refine ⟨rfl, rfl, fun sections h => ?_, fun sections sec h => ?_⟩
  · simp [load_config_file, h]
  · refine ⟨sectionRecord sec, by simp [load_config_file, h],
      rfl, rfl, rfl, rfl, rfl, rfl, rfl, rfl,
      ?_, ?_, ?_, ?_, ?_, ?_, ?_, ?_⟩ <;> exact sectionGet_isSome_iff sec _

/-- C6 witness: a file whose only section is `[other]` loads as an absent
record; a file with an `[openstack]` section holding two recognized keys
loads as a record with exactly those two keys. -/
theorem claim_C6_witness :
    load_config_file (IniFile.content [("other", [("x", "1")])]) = none ∧
    load_config_file (IniFile.content
        [("openstack", [("auth_url", "https://keystone.example.com:5000/v3"),
                        ("username", "admin")])]) =
      some { auth_url := some "https://keystone.example.com:5000/v3",
             username := some "admin" } := by
  have h := claim_C6
  exact ⟨h.2.2.1 [("other", [("x", "1")])] rfl, rfl⟩


/-! ### Claim C4 -/

/-- A file-loop iteration succeeds exactly on an existing file that parses
to a validating record. -/
theorem attemptFile_some_iff (fs : String → Option IniFile) (p : String) (c : AuthConfig) :
    attemptFile fs p = some c ↔
      ∃ f, fs p = some f ∧ load_config_file f = some c ∧
        (validate_auth_config c).1 = true := by
  constructor
  · intro h
    unfold attemptFile at h
    split at h
    · exact absurd h (by simp)
    · rename_i f hf
      split at h
      · exact absurd h (by simp)
      · rename_i c' hl
        split at h
        · rename_i hv
          obtain rfl : c' = c := by simpa using h
          exact ⟨f, hf, hl, by simpa using hv⟩
        · exact absurd h (by simp)
  · rintro ⟨f, hf, hl, hv⟩
    unfold attemptFile
    split
    · rename_i h0
      rw [h0] at hf
      cases hf
    · rename_i f0 h0
      rw [h0] at hf
      obtain rfl : f0 = f := by injection hf
      split
      · rename_i h1
        rw [h1] at hl
        cases hl
      · rename_i c0 h1
        rw [h1] at hl
        obtain rfl : c0 = c := by injection hl with h2
        simp [hv]

/-- Any record the file loop adopts validates. -/
theorem tryConfigFiles_valid (fs : String → Option IniFile) :
    ∀ (paths : List String) (c : AuthConfig), tryConfigFiles fs paths = some c →
      (validate_auth_config c).1 = true := by
  intro paths
  induction paths with
  | nil => intro c h; simp [tryConfigFiles] at h
  | cons p ps ih =>
    intro c h
    unfold tryConfigFiles at h
    split at h
    · rename_i c' ha
      obtain rfl : c' = c := by simpa using h
      obtain ⟨f, _, _, hv⟩ := (attemptFile_some_iff fs p c').1 ha
      exact hv
    · exact ih c h

/-- The file loop adopts the first path whose iteration succeeds: every
earlier path contributes nothing. -/
theorem tryConfigFiles_first (fs : String → Option IniFile) :
    ∀ (paths : List String) (c : AuthConfig), tryConfigFiles fs paths = some c →
      ∃ i, ∃ hi : i < paths.length,
        attemptFile fs (paths.get ⟨i, hi⟩) = some c ∧
        ∀ j, ∀ hj : j < paths.length, j < i →
          attemptFile fs (paths.get ⟨j, hj⟩) = none := by
  intro paths
  induction paths with
  | nil => intro c h; simp [tryConfigFiles] at h
  | cons p ps ih =>
    intro c h
    unfold tryConfigFiles at h
    split at h
    · rename_i c' ha
      obtain rfl : c' = c := by simpa using h
      exact ⟨0, by simp, by simpa using ha, fun j hj hlt => absurd hlt (by omega)⟩
    · rename_i ha
      obtain ⟨i, hi, hc, hprev⟩ := ih c h
      refine ⟨i + 1, by simpa using Nat.succ_lt_succ hi, by simpa using hc,
        fun j hj hlt => ?_⟩
      cases j with
      | zero => simpa using ha
      | succ k =>
        have hk : k < ps.length := by simpa using hj
        have := hprev k hk (by omega)
        simpa using this

/-- When the file loop adopts nothing, every path's iteration failed. -/
theorem tryConfigFiles_none (fs : String → Option IniFile) :
    ∀ (paths : List String), tryConfigFiles fs paths = none →
      ∀ j, ∀ hj : j < paths.length, attemptFile fs (paths.get ⟨j, hj⟩) = none := by
  intro paths
  induction paths with
  | nil => intro _ j hj; simp at hj
  | cons p ps ih =>
    intro h j hj
    unfold tryConfigFiles at h
    split at h
    · exact absurd h (by simp)
    · rename_i ha
      cases j with
      | zero => simpa using ha
      | succ k =>
        have hk : k < ps.length := by simpa using hj
        simpa using ih h k hk

/-- C4: under the `auto` strategy, a validating environment record is used
as-is (for every filesystem and every interactive record, so without
consulting either); otherwise the first of the three default paths holding
an existing file that parses to a validating record is adopted (without
prompting); if no path qualifies, the interactive record is used. -/
theorem claim_C4 (env interactiveCfg : AuthConfig) (fs : String → Option IniFile) :
    ((validate_auth_config env).1 = true → resolveAuto env fs interactiveCfg = env) ∧
    ((validate_auth_config env).1 = false →
      (∀ c, tryConfigFiles fs defaultConfigPaths = some c →
        resolveAuto env fs interactiveCfg = c ∧ (validate_auth_config c).1 = true) ∧
      (tryConfigFiles fs defaultConfigPaths = none →
        resolveAuto env fs interactiveCfg = interactiveCfg)) ∧
    (∀ p c, attemptFile fs p = some c ↔
      ∃ f, fs p = some f ∧ load_config_file f = some c ∧
        (validate_auth_config c).1 = true) ∧
    (∀ c, tryConfigFiles fs defaultConfigPaths = some c →
      ∃ i, ∃ hi : i < defaultConfigPaths.length,
        attemptFile fs (defaultConfigPaths.get ⟨i, hi⟩) = some c ∧
        ∀ j, ∀ hj : j < defaultConfigPaths.length, j < i →
          attemptFile fs (defaultConfigPaths.get ⟨j, hj⟩) = none) ∧
    (tryConfigFiles fs defaultConfigPaths = none →
      ∀ j, ∀ hj : j < defaultConfigPaths.length,
        attemptFile fs (defaultConfigPaths.get ⟨j, hj⟩) = none) := by
  refine ⟨fun h => ?_, fun h => ⟨fun c hc => ?_, fun hn => ?_⟩,
    fun p c => attemptFile_some_iff fs p c,
    fun c => tryConfigFiles_first fs defaultConfigPaths c,
    fun h => tryConfigFiles_none fs defaultConfigPaths h⟩
  · simp [resolveAuto, h]
  · have hv := tryConfigFiles_valid fs defaultConfigPaths c hc
    refine ⟨?_, hv⟩
    simp [resolveAuto, h, hc, hv]
  · simp [resolveAuto, h, hn]

/-- Example section used by the C4 witness. -/
def exSec4 : List (String × String) :=
  [("auth_url", "https://keystone.example.com:5000/v3"), ("username", "admin"),
   ("password", "secret"), ("project_name", "demo")]

/-- Example filesystem used by the C4 witness: the first default path exists
but is unreadable, the second parses to a validating record, the third does
not exist. -/
def exFs4 : String → Option IniFile := fun p =>
  if p = "~/.config/openstack/clouds.ini" then some IniFile.unreadable
  else if p = "~/.openstack/config" then some (IniFile.content [("openstack", exSec4)])
  else none

/-- C4 witness: with an invalid environment record, the resolver adopts the
record of the second default path (the first existing, parsing, validating
one) and does not prompt. -/
theorem claim_C4_witness :
    (validate_auth_config {}).1 = false ∧
    tryConfigFiles exFs4 defaultConfigPaths = some (sectionRecord exSec4) ∧
    resolveAuto {} exFs4 {} = sectionRecord exSec4 := by
  have h := claim_C4 {} {} exFs4
  exact ⟨rfl, rfl, ((h.2.1 rfl).1 (sectionRecord exSec4) rfl).1⟩

/-! ### Claim C2 -/

/-- Rounding fixes zero. -/
theorem round2_zero : round2 0 = 0 := by
  unfold round2 roundHalfEven
  norm_num

/-- C2: with a zero capacity in a dimension, every derived percentage and
ratio of that dimension is 0 — both the intermediate values and the rounded
row fields — because the division is guarded by `capacity > 0`. -/
theorem claim_C2 (h : Hypervisor) (servers : List Server) :
    (h.vcpus = 0 →
      physical_cpu_usage h = 0 ∧
      allocated_cpu_percentage h servers = 0 ∧
      cpu_overcommit_ratio h servers = 0 ∧
      (buildHypervisorRow h servers).physicalCpuUsagePct = 0 ∧
      (buildHypervisorRow h servers).allocatedCpuPct = 0 ∧
      (buildHypervisorRow h servers).cpuOvercommitDisplay = 0) ∧
    (h.memory_size = 0 →
      physical_memory_usage h = 0 ∧
      allocated_memory_percentage h servers = 0 ∧
      memory_overcommit_ratio h servers = 0 ∧
      (buildHypervisorRow h servers).physicalRamUsagePct = 0 ∧
      (buildHypervisorRow h servers).allocatedRamPct = 0 ∧
      (buildHypervisorRow h servers).memoryOvercommitDisplay = 0) ∧
    (h.local_disk_size = 0 →
      (buildHypervisorRow h servers).diskUsagePct = 0) := by
  refine ⟨fun h0 => ?_, fun h0 => ?_, fun h0 => ?_⟩
  · have h1 : physical_cpu_usage h = 0 := by simp [physical_cpu_usage, h0]
    have h2 : allocated_cpu_percentage h servers = 0 := by
      simp [allocated_cpu_percentage, h0]
    have h3 : cpu_overcommit_ratio h servers = 0 := by
      simp [cpu_overcommit_ratio, h0]
    exact ⟨h1, h2, h3,
      by simp [buildHypervisorRow, h1, round2_zero],
      by simp [buildHypervisorRow, h2, round2_zero],
      by simp [buildHypervisorRow, h3, round2_zero]⟩
  · have h1 : physical_memory_usage h = 0 := by simp [physical_memory_usage, h0]
    have h2 : allocated_memory_percentage h servers = 0 := by
      simp [allocated_memory_percentage, h0]
    have h3 : memory_overcommit_ratio h servers = 0 := by
      simp [memory_overcommit_ratio, h0]
    exact ⟨h1, h2, h3,
      by simp [buildHypervisorRow, h1, round2_zero],
      by simp [buildHypervisorRow, h2, round2_zero],
      by simp [buildHypervisorRow, h3, round2_zero]⟩
  · simp [buildHypervisorRow, h0]

/-- C2 witness: a hypervisor reporting zero capacities yields all-zero
derived figures instead of a division error. -/
theorem claim_C2_witness :
    physical_cpu_usage { name := "empty" } = 0 ∧
    cpu_overcommit_ratio { name := "empty" } [] = 0 ∧
    memory_overcommit_ratio { name := "empty" } [] = 0 ∧
    (buildHypervisorRow { name := "empty" } []).diskUsagePct = 0 := by
  have h := claim_C2 { name := "empty" } []
  exact ⟨(h.1 rfl).1, (h.1 rfl).2.2.1, (h.2.1 rfl).2.2.1, h.2.2 rfl⟩

/-! ### Claim C1 -/

/-- Characterization of the server scan: starting from any accumulator, the
loop adds the vcpus sum, the ram sum and the count of the matching servers. -/
theorem scanServers_general (h : Hypervisor) (l : List Server) :
    ∀ a b c : Nat, l.foldl (scanStep h) (a, b, c) =
      (a + ((l.filter (serverMatches h)).map flavorContribVcpus).sum,
       b + ((l.filter (serverMatches h)).map flavorContribRam).sum,
       c + (l.filter (serverMatches h)).length) := by
  induction l with
  | nil => intro a b c; simp
  | cons s rest ih =>
    intro a b c
    cases hm : serverMatches h s with
    | true =>
      simp only [List.foldl_cons, scanStep, hm, if_true,
        ih (a + flavorContribVcpus s) (b + flavorContribRam s) (c + 1),
        List.filter_cons, List.map_cons, List.sum_cons, List.length_cons, Prod.mk.injEq]
      omega
    | false =>
      simp only [List.foldl_cons, scanStep, hm, Bool.false_eq_true, if_false,
        ih a b c, List.filter_cons, Prod.mk.injEq]

/-- The accumulated vcpus equal the sum over the matching servers. -/
theorem allocated_vcpus_eq (h : Hypervisor) (servers : List Server) :
    allocated_vcpus h servers
      = ((servers.filter (serverMatches h)).map flavorContribVcpus).sum := by
  have h0 := scanServers_general h servers 0 0 0
  unfold allocated_vcpus scanServers
  rw [h0]
  simp

/-- The accumulated ram equals the sum over the matching servers. -/
theorem allocated_memory_eq (h : Hypervisor) (servers : List Server) :
    allocated_memory h servers
      = ((servers.filter (serverMatches h)).map flavorContribRam).sum := by
  have h0 := scanServers_general h servers 0 0 0
  unfold allocated_memory scanServers
  rw [h0]
  simp

/-- The hypervisor of the claim's concrete example: capacity 16 vcpus and
32768 MB. -/
def exHyp1 : Hypervisor :=
  { hvId := "hv-01", name := "compute-01", hypervisor_type := "QEMU", state := "up",
    status := "enabled", vcpus := 16, vcpus_used := 4, memory_size := 32768,
    memory_used := 8192, local_disk_size := 100, local_disk_used := 10,
    running_vms := 2, host_ip := "192.0.2.10" }

/-- The flavor of the claim's concrete example: 2 vcpus, 2048 MB. -/
def exFlavor1 : Flavor := { vcpus := some 2, ram := some 2048, disk := some 20 }

/-- The claim's two matching active instances, plus one non-active instance
on the same host that must not contribute. -/
def exServers1 : List Server :=
  [ { id := "vm-1", name := "web-1", status := "ACTIVE",
      hypervisorHostname := some "compute-01", flavor := some exFlavor1 },
    { id := "vm-2", name := "web-2", status := "ACTIVE",
      hypervisorHostname := some "compute-01", flavor := some exFlavor1 },
    { id := "vm-3", name := "halted-1", status := "SHUTOFF",
      hypervisorHostname := some "compute-01", flavor := some exFlavor1 } ]

theorem exHyp1_alloc_vcpus : allocated_vcpus exHyp1 exServers1 = 4 := by decide

theorem exHyp1_alloc_memory : allocated_memory exHyp1 exServers1 = 4096 := by decide

theorem exHyp1_cpu_ratio : cpu_overcommit_ratio exHyp1 exServers1 = 1/4 := by
  norm_num [cpu_overcommit_ratio, exHyp1_alloc_vcpus, show exHyp1.vcpus = 16 from rfl]

theorem exHyp1_memory_ratio : memory_overcommit_ratio exHyp1 exServers1 = 1/8 := by
  norm_num [memory_overcommit_ratio, exHyp1_alloc_memory,
    show exHyp1.memory_size = 32768 from rfl]

/-- C1 counterexample: on the claim's own example input (capacity 16 vcpus /
32768 MB, two matching active instances with flavor 2 vcpus / 2048 MB), the
unrounded memory overcommit ratio is 0.125, but the row stores
`round(0.125, 2) = 0.12` — so the row does not contain 0.125. -/
theorem claim_C1_counterexample :
    allocated_vcpus exHyp1 exServers1 = 4 ∧
    allocated_memory exHyp1 exServers1 = 4096 ∧
    memory_overcommit_ratio exHyp1 exServers1 = 125/1000 ∧
    (buildHypervisorRow exHyp1 exServers1).memoryOvercommitDisplay = 12/100 ∧
    (12 : ℚ)/100 ≠ 125/1000 := by
  refine ⟨exHyp1_alloc_vcpus, exHyp1_alloc_memory, by norm_num [exHyp1_memory_ratio], ?_, by norm_num⟩
  norm_num [buildHypervisorRow, round2, roundHalfEven, exHyp1_memory_ratio]

/-- C1 (amended): the allocated figures are the sums of flavor vcpus/ram
over the matching active instances (an unresolvable flavor contributes 0);
the overcommit ratios are the allocated figures divided by the capacities;
the flags are `"Yes"` exactly when the unrounded ratio exceeds 1; the row
stores the ratios rounded to two decimals, so on the example the row holds
cpu ratio 0.25 and memory ratio 0.12 (the unrounded memory ratio being
0.125), with both flags `"No"`. -/
theorem claim_C1 (h : Hypervisor) (servers : List Server)
    (hc : 0 < h.vcpus) (hm : 0 < h.memory_size) :
    (buildHypervisorRow h servers).allocatedVcpus
        = ((servers.filter (serverMatches h)).map flavorContribVcpus).sum ∧
    (buildHypervisorRow h servers).allocatedRam
        = ((servers.filter (serverMatches h)).map flavorContribRam).sum ∧
    cpu_overcommit_ratio h servers
        = (allocated_vcpus h servers : ℚ) / (h.vcpus : ℚ) ∧
    memory_overcommit_ratio h servers
        = (allocated_memory h servers : ℚ) / (h.memory_size : ℚ) ∧
    ((buildHypervisorRow h servers).cpuOvercommitted = "Yes"
        ↔ 1 < cpu_overcommit_ratio h servers) ∧
    ((buildHypervisorRow h servers).memoryOvercommitted = "Yes"
        ↔ 1 < memory_overcommit_ratio h servers) ∧
    (buildHypervisorRow h servers).cpuOvercommitDisplay
        = round2 (cpu_overcommit_ratio h servers) ∧
    (buildHypervisorRow h servers).memoryOvercommitDisplay
        = round2 (memory_overcommit_ratio h servers) ∧
    allocated_vcpus exHyp1 exServers1 = 4 ∧
    allocated_memory exHyp1 exServers1 = 4096 ∧
    cpu_overcommit_ratio exHyp1 exServers1 = 1/4 ∧
    memory_overcommit_ratio exHyp1 exServers1 = 1/8 ∧
    (buildHypervisorRow exHyp1 exServers1).cpuOvercommitDisplay = 1/4 ∧
    (buildHypervisorRow exHyp1 exServers1).memoryOvercommitDisplay = 12/100 ∧
    (buildHypervisorRow exHyp1 exServers1).cpuOvercommitted = "No" ∧
    (buildHypervisorRow exHyp1 exServers1).memoryOvercommitted = "No" := by
  refine ⟨allocated_vcpus_eq h servers, allocated_memory_eq h servers,
    by simp [cpu_overcommit_ratio, hc], by simp [memory_overcommit_ratio, hm],
    ?_, ?_, rfl, rfl,
    exHyp1_alloc_vcpus, exHyp1_alloc_memory, exHyp1_cpu_ratio, exHyp1_memory_ratio,
    by norm_num [buildHypervisorRow, round2, roundHalfEven, exHyp1_cpu_ratio],
    by norm_num [buildHypervisorRow, round2, roundHalfEven, exHyp1_memory_ratio],
    by norm_num [buildHypervisorRow, exHyp1_cpu_ratio],
    by norm_num [buildHypervisorRow, exHyp1_memory_ratio]⟩
  · show (if 1 < cpu_overcommit_ratio h servers then "Yes" else "No") = "Yes" ↔ _
    split
    · rename_i hr; simp [hr]
    · rename_i hr; simp [hr]
  · show (if 1 < memory_overcommit_ratio h servers then "Yes" else "No") = "Yes" ↔ _
    split
    · rename_i hr; simp [hr]
    · rename_i hr; simp [hr]

/-- C1 witness: the amended theorem applied to the example hypervisor. -/
theorem claim_C1_witness :
    (buildHypervisorRow exHyp1 exServers1).allocatedVcpus
        = ((exServers1.filter (serverMatches exHyp1)).map flavorContribVcpus).sum ∧
    cpu_overcommit_ratio exHyp1 exServers1
        = (allocated_vcpus exHyp1 exServers1 : ℚ) / (exHyp1.vcpus : ℚ) ∧
    (buildHypervisorRow exHyp1 exServers1).cpuOvercommitted = "No" := by
  have h := claim_C1 exHyp1 exServers1 (by decide) (by decide)
  exact ⟨h.1, h.2.2.1, h.2.2.2.2.2.2.2.2.2.2.2.2.2.2.1⟩

/-! ### Claim C7 -/

theorem splitChar_exists_cons (c : Char) (l : List Char) :
    ∃ r rs, splitChar c l = r :: rs := by
  induction l with
  | nil => exact ⟨[], [], rfl⟩
  | cons x xs ih =>
    obtain ⟨r, rs, hr⟩ := ih
    by_cases hx : x = c
    · subst hx
      exact ⟨[], splitChar x xs, by simp [splitChar]⟩
    · refine ⟨x :: r, rs, ?_⟩
      simp only [splitChar, show (x == c) = false by simpa using hx, Bool.false_eq_true,
        if_false, hr]

/-- The chunk before the first separator is the longest separator-free
front. -/
theorem splitChar_getD_zero (c : Char) (l : List Char) :
    (splitChar c l).getD 0 [] = l.takeWhile (fun x => !(x == c)) := by
  induction l with
  | nil => simp [splitChar, List.takeWhile]
  | cons x xs ih =>
    by_cases hx : x = c
    · subst hx
      simp [splitChar, List.takeWhile]
    · obtain ⟨r, rs, hr⟩ := splitChar_exists_cons c xs
      have hr0 : r = xs.takeWhile (fun y => !(y == c)) := by
        rw [hr] at ih
        simpa using ih
      simp only [splitChar, show (x == c) = false by simpa using hx, Bool.false_eq_true,
        if_false, hr]
      simp [List.takeWhile, show (x == c) = false by simpa using hx, hr0]

/-- Splitting at the first separator detaches the separator-free front. -/
theorem splitChar_append_sep (c : Char) (n rest : List Char) (h : c ∉ n) :
    splitChar c (n ++ c :: rest) = n :: splitChar c rest := by
  induction n with
  | nil => simp [splitChar]
  | cons x xs ih =>
    have hx : ¬ x = c := fun he => h (he ▸ List.mem_cons_self x xs)
    have hxs : c ∉ xs := fun hm => h (List.mem_cons_of_mem x hm)
    simp only [List.cons_append, splitChar, show (x == c) = false by simpa using hx,
      Bool.false_eq_true, if_false, List.append_eq, ih hxs]

theorem takeWhile_append_of_all (p : Char → Bool) (l₁ l₂ : List Char)
    (h : ∀ x ∈ l₁, p x = true) :
    (l₁ ++ l₂).takeWhile p = l₁ ++ l₂.takeWhile p := by
  induction l₁ with
  | nil => simp
  | cons x xs ih =>
    have hx : p x = true := h x (List.mem_cons_self x xs)
    simp only [List.cons_append, List.takeWhile, hx, List.append_eq]
    rw [ih (fun y hy => h y (List.mem_cons_of_mem x hy))]

theorem takeWhile_takeWhile_bool (p q : Char → Bool) (l : List Char) :
    (l.takeWhile q).takeWhile p = l.takeWhile (fun x => q x && p x) := by
  induction l with
  | nil => simp
  | cons x xs ih =>
    cases hq : q x <;> cases hp : p x <;> simp [List.takeWhile, hq, hp, ih]

theorem dropTrailing_append_space (l : List Char) :
    dropTrailing (l ++ [' ']) = dropTrailing l := by
  unfold dropTrailing
  rw [List.reverse_append]
  simp [List.dropWhile, isPySpace]

theorem stripList_append_space (l : List Char) :
    stripList (l ++ [' ']) = stripList l := by
  unfold stripList
  rw [dropTrailing_append_space]

/-- The line-304 extraction, applied to a formatted entry whose network name
and address contain no colon, whose address contains no parenthesis and
carries no surrounding whitespace, recovers exactly the address. -/
theorem pyExtract_fmtAddr (n : List Char) (a : AddrEntry)
    (hn : ':' ∉ n) (ha1 : ':' ∉ a.addr) (ha2 : '(' ∉ a.addr)
    (ha3 : stripList a.addr = a.addr) :
    pyExtract (fmtAddr n a) = a.addr := by
  unfold pyExtract fmtAddr
  rw [splitChar_append_sep ':' n _ hn]
  have hgd : (n :: splitChar ':' (a.addr ++ (' ' :: '(' :: (a.ipType ++ [')'])))).getD 1 []
      = (splitChar ':' (a.addr ++ (' ' :: '(' :: (a.ipType ++ [')'])))).getD 0 [] := rfl
  rw [hgd, splitChar_getD_zero, splitChar_getD_zero, takeWhile_takeWhile_bool]
  have hall : ∀ x ∈ a.addr, (!(x == ':') && !(x == '(')) = true := by
    intro x hx
    have h1 : ¬ x = ':' := fun e => ha1 (e ▸ hx)
    have h2 : ¬ x = '(' := fun e => ha2 (e ▸ hx)
    simp [h1, h2]
  rw [takeWhile_append_of_all _ _ _ hall]
  have hsp : List.takeWhile (fun x => !(x == ':') && !(x == '('))
      (' ' :: '(' :: (a.ipType ++ [')'])) = [' '] := rfl
  rw [hsp, stripList_append_space, ha3]

/-- A type marker containing `floating` makes the whole formatted entry
contain `floating`. -/
theorem pyContains_fmtAddr_of_ipType (n : List Char) (a : AddrEntry)
    (h : pyContains floatingChars a.ipType = true) :
    pyContains floatingChars (fmtAddr n a) = true := by
  unfold pyContains at h ⊢
  simp only [decide_eq_true_eq] at h ⊢
  obtain ⟨u, v, huv⟩ := h
  refine ⟨n ++ (':' :: (a.addr ++ (' ' :: '(' :: u))), v ++ [')'], ?_⟩
  rw [fmtAddr, ← huv]
  simp [List.append_assoc]

theorem foldl_append_bind (f : (List Char × List AddrEntry) → List (List Char)) :
    ∀ (l : List (List Char × List AddrEntry)) (acc : List (List Char)),
      l.foldl (fun acc p => acc ++ f p) acc = acc ++ l.flatMap f := by
  intro l
  induction l with
  | nil => intro acc; simp
  | cons x xs ih =>
    intro acc
    simp only [List.foldl_cons, ih, List.flatMap_cons, List.append_assoc]

/-- The nested network loop flattens the address entries in order. -/
theorem buildNetworkIps_eq (addresses : List (List Char × List AddrEntry)) :
    buildNetworkIps addresses = addresses.flatMap (fun p => p.2.map (fmtAddr p.1)) := by
  unfold buildNetworkIps
  rw [foldl_append_bind]
  simp

/-- The server of the C7 counterexample: its only address entry is a fixed
(non-floating) address on a network whose *name* contains `floating`. -/
def exServer7 : Server :=
  { id := "vm-7", name := "lure", status := "ACTIVE",
    addresses := [("floatingnet".data, [⟨"10.0.0.5".data, "fixed".data⟩])] }

/-- C7 counterexample: the type marker of the first entry is `fixed`, so the
claim demands `N/A`; but `'floating' in network_ips[0]` also matches the
network name, and the code reports the address `10.0.0.5`. -/
theorem claim_C7_counterexample :
    (buildInstanceRow exServer7).publicIp = "10.0.0.5".data ∧
    pyContains floatingChars "fixed".data = false ∧
    "10.0.0.5".data ≠ "N/A".data := by
  refine ⟨by decide, by decide, by decide⟩

/-- C7 (amended): the `Public IP` field is computed from the first joined
entry only: `N/A` when there is no entry or when the string `floating`
occurs nowhere in the first joined entry `network:addr (type)` (in
particular, whenever the type marker contains `floating`, the whole entry
does); when `floating` occurs anywhere in the first entry — whether in the
type marker, the network name or the address — the field is the text
between the entry's first and second colons truncated at the first
parenthesis and stripped, which is exactly the address whenever the network
name and address are colon-free and the address is parenthesis-free and
stripped. -/
theorem claim_C7 (s : Server) (n : List Char) (a : AddrEntry)
    (moreAddrs : List AddrEntry) (moreNets : List (List Char × List AddrEntry))
    (ip0 : List Char) (restIps restIps2 : List (List Char)) :
    (buildInstanceRow s).publicIp = publicIpField (buildNetworkIps s.addresses) ∧
    publicIpField [] = "N/A".data ∧
    (pyContains floatingChars ip0 = false → publicIpField (ip0 :: restIps) = "N/A".data) ∧
    (pyContains floatingChars ip0 = true → publicIpField (ip0 :: restIps) = pyExtract ip0) ∧
    publicIpField (ip0 :: restIps) = publicIpField (ip0 :: restIps2) ∧
    (pyContains floatingChars a.ipType = true →
      pyContains floatingChars (fmtAddr n a) = true) ∧
    (':' ∉ n → ':' ∉ a.addr → '(' ∉ a.addr → stripList a.addr = a.addr →
      pyExtract (fmtAddr n a) = a.addr) ∧
    buildNetworkIps ((n, a :: moreAddrs) :: moreNets)
      = fmtAddr n a :: (moreAddrs.map (fmtAddr n) ++ buildNetworkIps moreNets) := by
  refine ⟨rfl, rfl, fun h => by simp [publicIpField, h], fun h => by simp [publicIpField, h],
    rfl, pyContains_fmtAddr_of_ipType n a,
    fun hn ha1 ha2 ha3 => pyExtract_fmtAddr n a hn ha1 ha2 ha3, ?_⟩
  simp [buildNetworkIps_eq, List.flatMap_cons]

/-- C7 witness: a single floating-typed entry yields its address. -/
theorem claim_C7_witness :
    publicIpField (buildNetworkIps
      [("net1".data, [⟨"203.0.113.7".data, "floating".data⟩])]) = "203.0.113.7".data := by
  have h := claim_C7 exServer7 "net1".data ⟨"203.0.113.7".data, "floating".data⟩
    [] [] (fmtAddr "net1".data ⟨"203.0.113.7".data, "floating".data⟩) [] []
  have h8 := h.2.2.2.2.2.2.2
  have h4 := h.2.2.2.1 (h.2.2.2.2.2.1 (by decide))
  have h7 := h.2.2.2.2.2.2.1 (by decide) (by decide) (by decide) (by decide)
  rw [h8]
  simp only [List.map_nil, List.nil_append]
  calc publicIpField [fmtAddr "net1".data ⟨"203.0.113.7".data, "floating".data⟩]
      = pyExtract (fmtAddr "net1".data ⟨"203.0.113.7".data, "floating".data⟩) := h4
    _ = "203.0.113.7".data := h7
